import Mathlib

/-!
Verification of the workflow execution engine of the eDiscovery platform
(`backend/workflow_engine.py`, `backend/workflow_crud.py`, `backend/models.py`).

The engine is embedded shallowly:
* JSON-like Python values (`Dict[str, Any]` payloads) become the inductive
  `Value`; context maps become association lists `Ctx` with Python-dict
  update semantics (replace in place, append new keys at the end).  The
  embedding keys dicts by strings; a hashable non-string dict key (for
  example an integer `target_field`) is outside it and no theorem below
  touches one, but *unhashable* keys and operands (lists/dicts), which make
  Python raise `TypeError`, are modelled as errors where the source can hit
  them.
* The Mongo-backed step store becomes an explicit `EngineState` carried
  through the execution functions; `update_step` / `start_execution` /
  `insert_one` / `update_many` pass raw dicts to the driver and work, and
  are modelled as state updates.
* `WorkflowInstanceCRUD.update_status`, by contrast, starts with
  `update.dict(exclude_unset=True)` (workflow_crud.py:189): it requires a
  `WorkflowInstanceUpdate` model, while `execute_workflow`'s progress
  write (workflow_engine.py:63), its completion write (line 76) and
  `_mark_failed` (line 379) all pass plain dict literals.  Each of those
  calls therefore raises `AttributeError` before touching the store.  The
  embedding models this faithfully: the run crashes after at most one
  step, the instance document is never advanced past `RUNNING`, and
  `execute_workflow` raises instead of returning a boolean.  A raised
  exception is an `Except.error`; a return value is `Except.ok`.
* Fallible Python code (operators that may raise) returns `Except String`.
* The three LLM-backed sub-operations of the `ai_analysis` operator call an
  external OpenAI collaborator; they are abstracted as oracle functions in
  `EngineConfig` (their dispatch, which is the deterministic part, is
  modelled exactly).  Timestamps, websocket notifications and logging are
  not modelled; `started_at` is kept abstractly as an hour count so that
  the stale-instance reaper can be modelled.
* `str()` of container values abbreviates unescaped Python `repr`
  punctuation; no theorem below depends on the rendering of containers.
-/

/-- JSON-like runtime values of the Python payload dictionaries. -/
inductive Value where
  | vNone : Value
  | vBool (b : Bool) : Value
  | vNat (n : Nat) : Value
  | vStr (s : String) : Value
  | vList (xs : List Value) : Value
  | vMap (m : List (String × Value)) : Value

mutual

/-- Structural equality test on values (Python `==` on JSON-like data). -/
def Value.beq : Value → Value → Bool
  | .vNone, .vNone => true
  | .vBool a, .vBool b => a == b
  | .vNat a, .vNat b => a == b
  | .vStr a, .vStr b => a == b
  | .vList a, .vList b => Value.beqL a b
  | .vMap a, .vMap b => Value.beqM a b
  | _, _ => false

/-- Equality test on value lists. -/
def Value.beqL : List Value → List Value → Bool
  | [], [] => true
  | a :: as, b :: bs => Value.beq a b && Value.beqL as bs
  | _, _ => false

/-- Equality test on string-keyed value maps. -/
def Value.beqM : List (String × Value) → List (String × Value) → Bool
  | [], [] => true
  | (k1, v1) :: as, (k2, v2) :: bs => k1 == k2 && Value.beq v1 v2 && Value.beqM as bs
  | _, _ => false

end

mutual

/-- Python `repr` of a value (string escaping inside containers elided). -/
def pyRepr : Value → String
  | .vNone => "None"
  | .vBool true => "True"
  | .vBool false => "False"
  | .vNat n => toString n
  | .vStr s => "'" ++ s ++ "'"
  | .vList xs => "[" ++ pyReprL xs ++ "]"
  | .vMap m => "\x7b" ++ pyReprM m ++ "\x7d"

/-- `repr` of the comma-separated elements of a list. -/
def pyReprL : List Value → String
  | [] => ""
  | [x] => pyRepr x
  | x :: xs => pyRepr x ++ ", " ++ pyReprL xs

/-- `repr` of the comma-separated entries of a dict. -/
def pyReprM : List (String × Value) → String
  | [] => ""
  | [(k, v)] => "'" ++ k ++ "': " ++ pyRepr v
  | (k, v) :: m => "'" ++ k ++ "': " ++ pyRepr v ++ ", " ++ pyReprM m

end

/-- Python `str()` of a value. -/
def pyStr : Value → String
  | .vStr s => s
  | v => pyRepr v

/-- Does the character list `hay` start with `needle`? -/
def charsStartWith : List Char → List Char → Bool
  | _, [] => true
  | [], _ :: _ => false
  | a :: as, b :: bs => a == b && charsStartWith as bs

/-- Does `hay` contain `needle` as a contiguous run (Python `needle in hay`)? -/
def charsContain (hay needle : List Char) : Bool :=
  match hay with
  | [] => charsStartWith [] needle
  | _ :: t => charsStartWith hay needle || charsContain t needle

/-- Python substring test `needle in hay` on strings. -/
def strContains (hay needle : String) : Bool :=
  charsContain hay.toList needle.toList

/-- Association-list embedding of a Python `dict[str, Any]`. -/
abbrev Ctx := List (String × Value)

/-- Dict lookup `c[k]` / `c.get(k)`. -/
def ctxLookup (c : Ctx) (k : String) : Option Value :=
  match c.find? (fun p => p.1 == k) with
  | some p => some p.2
  | none => none

/-- Dict lookup with default, `c.get(k, d)`. -/
def ctxGetD (c : Ctx) (k : String) (d : Value) : Value :=
  (ctxLookup c k).getD d

/-- Dict membership test `k in c` for a string key. -/
def ctxHas (c : Ctx) (k : String) : Bool :=
  (ctxLookup c k).isSome

/-- Dict assignment `c[k] = v`: replace an existing binding in place,
otherwise append the new key at the end (Python insertion order). -/
def ctxSet (c : Ctx) (k : String) (v : Value) : Ctx :=
  if c.any (fun p => p.1 == k) then
    c.map (fun p => if p.1 == k then (k, v) else p)
  else c ++ [(k, v)]

/-- Dict merge `c.update(d)`: set every binding of `d` in `c`, in order.
This is the context merge `execute_workflow` performs at
workflow_engine.py:70-73; on a stored instance that point is never reached
because the progress write just before it raises. -/
def ctxUpdate (c d : Ctx) : Ctx :=
  d.foldl (fun acc kv => ctxSet acc kv.1 kv.2) c

/-- `models.WorkflowStatus`. -/
inductive WStatus where
  | pending | running | completed | failed | cancelled | paused
deriving DecidableEq, Repr

/-- The fields of `models.WorkflowStep` that the engine reads or writes
(timestamps and retry counters elided). -/
structure StepRec where
  step_number : Nat
  step_name : String
  step_type : String
  operator_name : String
  parameters : Ctx
  status : WStatus
  input_data : Ctx
  output_data : Ctx
  error_message : Option String

/-- The fields of `models.WorkflowInstance` that the engine reads or writes
(timestamps kept abstractly as an hour count in `started_at`). -/
structure InstanceRec where
  status : WStatus
  current_step : Nat
  current_step_name : Option String
  total_steps : Nat
  input_data : Ctx
  output_data : Ctx
  progress_percentage : Rat
  error_message : Option String
  started_at : Option Nat

/-- A step specification inside `WorkflowDefinition.steps`
(a dict accessed with `.get` and defaults in `_create_workflow_steps`). -/
structure StepDef where
  name : Option String := none
  type : Option String := none
  operator : Option String := none
  parameters : Ctx := []
  depends_on : List Nat := []
  parallel_group : Option String := none

/-- The fields of `models.WorkflowDefinition` read at instance creation. -/
structure DefinitionRec where
  name : String
  version : String
  workflow_type : String
  steps : List StepDef
  is_active : Bool

/-- The fields of `models.WorkflowInstanceRequest` read by instance creation. -/
structure InstanceRequest where
  workflow_definition_id : String
  input_data : Ctx

namespace WorkflowInstanceCRUD

/-- `WorkflowInstanceCRUD._create_workflow_steps`: snapshot the definition's
step specifications into 1-based `PENDING` step records (a raw
`insert_many`, which works). -/
def create_workflow_steps (steps_definition : List StepDef) : List StepRec :=
  (List.range steps_definition.length).zip steps_definition |>.map fun iv =>
    { step_number := iv.1 + 1
      step_name := iv.2.name.getD ("Step " ++ toString (iv.1 + 1))
      step_type := iv.2.type.getD "generic"
      operator_name := iv.2.operator.getD ""
      parameters := iv.2.parameters
      status := .pending
      input_data := []
      output_data := []
      error_message := none }

/-- `WorkflowInstanceCRUD.create`: look the workflow definition up by id in
the definition store (an association list from id to definition); raise
`ValueError("Workflow definition not found")` when absent; otherwise build a
`PENDING` instance that snapshots the definition's steps.  The definition's
`is_active` flag is not consulted anywhere on this path. -/
def create (defs : List (String × DefinitionRec)) (req : InstanceRequest) :
    Except String (InstanceRec × List StepRec) :=
  match defs.find? (fun p => p.1 == req.workflow_definition_id) with
  | none => .error "Workflow definition not found"
  | some d =>
      .ok ({ status := .pending
             current_step := 0
             current_step_name := none
             total_steps := d.2.steps.length
             input_data := req.input_data
             output_data := []
             progress_percentage := 0
             error_message := none
             started_at := none },
           create_workflow_steps d.2.steps)

/-- Is the stored instance matched by the reaper's filter
`status == RUNNING and started_at < cutoff`?  (A missing `started_at`
does not match a Mongo `$lt` comparison against a date.) -/
def isStale (cutoff : Nat) (i : InstanceRec) : Bool :=
  i.status == .running &&
    match i.started_at with
    | some t => t < cutoff
    | none => false

/-- `WorkflowInstanceCRUD.cleanup_stale_instances` (a raw `update_many`,
which works): bulk-update every `RUNNING` instance started before
`now - timeout_hours` to `FAILED` with a timeout error message; return the
store together with the modified count. -/
def cleanup_stale_instances (now timeout_hours : Nat) (db : List InstanceRec) :
    List InstanceRec × Nat :=
  let cutoff := now - timeout_hours
  (db.map fun i =>
      if isStale cutoff i then
        { i with status := .failed
                 error_message :=
                   some ("Workflow timeout after " ++ toString timeout_hours ++ " hours") }
      else i,
   (db.filter (isStale cutoff)).length)

end WorkflowInstanceCRUD

namespace WorkflowExecutionEngine

/-- The engine's collaborators: whether an OpenAI client was configured, the
three LLM-backed sub-operations of `ai_analysis` (abstracted as oracles of
the parameters and context), and the wall-clock hour used when stamping
`started_at`. -/
structure EngineConfig where
  hasOpenAIClient : Bool
  llmSummarize : Ctx → Ctx → Except String Ctx
  llmClassify : Ctx → Ctx → Except String Ctx
  llmExtractEntities : Ctx → Ctx → Except String Ctx
  now : Nat

/-- The store as seen by one `execute_workflow` call on a stored (found)
instance: the instance document and its step documents (kept in
`step_number` order, the order `get_steps` returns and
`_create_workflow_steps` inserts).  `progressWrites` is the trace of
`progress_percentage` values successfully persisted to the instance
document; on the engine's paths every `update_status` call raises before
writing, so the trace never grows — it is carried to state that fact. -/
structure EngineState where
  inst : InstanceRec
  steps : List StepRec
  progressWrites : List Rat

/-- The exception `WorkflowInstanceCRUD.update_status` raises whenever it is
handed a plain dict instead of a `WorkflowInstanceUpdate` model: its first
line `update.dict(exclude_unset=True)` (workflow_crud.py:189) accesses
`.dict` on the dict.  All three engine call sites
(workflow_engine.py:63, 76 and 379) pass plain dict literals. -/
def updateStatusDictError : String :=
  "AttributeError: 'dict' object has no attribute 'dict'"

/-- `WorkflowExecutionEngine._execute_ai_analysis_step`: fail when no OpenAI
client is configured, otherwise sub-dispatch on `parameters.get("operation",
"analyze")`; an unrecognized operation raises. -/
def execute_ai_analysis_step (cfg : EngineConfig) (parameters ctx : Ctx) :
    Except String Ctx :=
  if !cfg.hasOpenAIClient then
    .error "OpenAI client not available for AI analysis"
  else
    let operation := ctxGetD parameters "operation" (.vStr "analyze")
    if operation.beq (.vStr "summarize") then cfg.llmSummarize parameters ctx
    else if operation.beq (.vStr "classify") then cfg.llmClassify parameters ctx
    else if operation.beq (.vStr "extract_entities") then cfg.llmExtractEntities parameters ctx
    else .error ("Unknown AI operation: " ++ pyStr operation)

/-- `WorkflowExecutionEngine._execute_document_extraction_step`: pass-through
echoing the context. -/
def execute_document_extraction_step (ctx : Ctx) : Ctx :=
  [("operation", .vStr "document_extraction"),
   ("extracted_data", .vMap ctx),
   ("status", .vStr "completed")]

/-- `WorkflowExecutionEngine._evaluate_condition`: the four supported
conditions; any other condition value evaluates to `False`.  `contains`
raises a `TypeError` when the expected value is not a string (Python
`x in str(...)` requires a string operand); `not_empty` is
`field_value is not None and str(field_value).strip() != ""`. -/
def evaluate_condition (field_value condition expected_value : Value) :
    Except String Bool :=
  if condition.beq (.vStr "equals") then
    .ok (field_value.beq expected_value)
  else if condition.beq (.vStr "not_equals") then
    .ok (!field_value.beq expected_value)
  else if condition.beq (.vStr "contains") then
    match expected_value with
    | .vStr s => .ok (strContains (pyStr field_value) s)
    | _ => .error "TypeError: in <string> requires string as left operand"
  else if condition.beq (.vStr "not_empty") then
    .ok (match field_value with
         | .vNone => false
         | v => !((pyStr v).trim == ""))
  else
    .ok false

/-- The loop body of `_execute_validation_step` over the rule list: a rule
that is not a dict raises (`rule.get` on a non-dict); the `if field in
context` guard (workflow_engine.py:320) raises `TypeError` when the field
value is an unhashable list or dict, skips the rule when the field is a
hashable value that is not a string key of the context, and otherwise the
condition is evaluated and a result dict `rule / passed / actual_value` is
appended. -/
def execute_validation_rules (ctx : Ctx) : List Value → Except String (List Ctx)
  | [] => .ok []
  | r :: rs =>
    match r with
    | .vMap rm =>
      match ctxGetD rm "field" .vNone with
      | .vStr f =>
        match ctxLookup ctx f with
        | some fv =>
          match evaluate_condition fv (ctxGetD rm "condition" .vNone)
              (ctxGetD rm "value" .vNone) with
          | .ok passed =>
            (execute_validation_rules ctx rs).map fun rest =>
              [("rule", r), ("passed", .vBool passed), ("actual_value", fv)] :: rest
          | .error e => .error e
        | none => execute_validation_rules ctx rs
      | .vList _ => .error "TypeError: unhashable type: 'list'"
      | .vMap _ => .error "TypeError: unhashable type: 'dict'"
      | _ => execute_validation_rules ctx rs
    | _ => .error "AttributeError: 'str' object has no attribute 'get'"

/-- The output dict `_execute_validation_step` builds from the collected
results (`all_passed` is vacuously true over zero results). -/
def validationOutput (results : List Ctx) : Ctx :=
  [("operation", .vStr "validation"),
   ("validation_results", .vList (results.map .vMap)),
   ("all_passed", .vBool (results.all fun res =>
      (ctxGetD res "passed" .vNone).beq (.vBool true))),
   ("status", .vStr "completed")]

/-- `WorkflowExecutionEngine._execute_validation_step`: iterate
`parameters.get("rules", [])` against the context.  A string or dict value
iterates in Python: when empty it yields nothing (zero results,
`all_passed = True`), and when non-empty its elements are strings, whose
`.get` raises.  A non-iterable value raises `TypeError`. -/
def execute_validation_step (parameters ctx : Ctx) : Except String Ctx :=
  match ctxGetD parameters "rules" (.vList []) with
  | .vList rules => (execute_validation_rules ctx rules).map validationOutput
  | .vStr s =>
      if s.isEmpty then .ok (validationOutput [])
      else .error "AttributeError: 'str' object has no attribute 'get'"
  | .vMap m =>
      if m.isEmpty then .ok (validationOutput [])
      else .error "AttributeError: 'str' object has no attribute 'get'"
  | _ => .error "TypeError: object is not iterable"

/-- One transform of `_execute_transformation_step`.  A transform that is
not a dict raises.  For the three known operations the guard
`source_field in transformed_data` raises `TypeError` on an unhashable
list/dict source; a hashable source that is not a string key of the data
makes the guard false (no-op).  When the source is present, an unhashable
target raises on assignment; a hashable non-string target would insert a
non-string dict key, which is outside this string-keyed embedding and is
modelled as leaving the string-keyed data unchanged (no theorem below
touches that case).  An unknown operation short-circuits every guard and is
a no-op. -/
def apply_transform (td : Ctx) (t : Value) : Except String Ctx :=
  match t with
  | .vMap tm =>
    let operation := ctxGetD tm "operation" .vNone
    let source := ctxGetD tm "source_field" .vNone
    let target := ctxGetD tm "target_field" .vNone
    if operation.beq (.vStr "copy") || operation.beq (.vStr "uppercase")
        || operation.beq (.vStr "lowercase") then
      match source with
      | .vList _ => .error "TypeError: unhashable type: 'list'"
      | .vMap _ => .error "TypeError: unhashable type: 'dict'"
      | .vStr s =>
        match ctxLookup td s with
        | some sv =>
          match target with
          | .vList _ => .error "TypeError: unhashable type: 'list'"
          | .vMap _ => .error "TypeError: unhashable type: 'dict'"
          | .vStr tg =>
            if operation.beq (.vStr "copy") then .ok (ctxSet td tg sv)
            else if operation.beq (.vStr "uppercase") then
              .ok (ctxSet td tg (.vStr (pyStr sv).toUpper))
            else .ok (ctxSet td tg (.vStr (pyStr sv).toLower))
          | _ => .ok td
        | none => .ok td
      | _ => .ok td
    else .ok td
  | _ => .error "AttributeError: transform has no attribute get"

/-- Folding `apply_transform` over the transform list in order. -/
def apply_transforms (td : Ctx) : List Value → Except String Ctx
  | [] => .ok td
  | t :: ts =>
    match apply_transform td t with
    | .ok td1 => apply_transforms td1 ts
    | .error e => .error e

/-- The output dict `_execute_transformation_step` builds: it embeds the
raw `transformations` value it iterated. -/
def transformationOutput (transformed : Ctx) (transformations : Value) : Ctx :=
  [("operation", .vStr "data_transformation"),
   ("transformed_data", .vMap transformed),
   ("applied_transformations", transformations),
   ("status", .vStr "completed")]

/-- `WorkflowExecutionEngine._execute_transformation_step`: iterate
`parameters.get("transformations", [])` over a copy of the context, with
the same iteration semantics as the rules value of the validation step. -/
def execute_transformation_step (parameters ctx : Ctx) : Except String Ctx :=
  match ctxGetD parameters "transformations" (.vList []) with
  | .vList ts =>
      (apply_transforms ctx ts).map fun td => transformationOutput td (.vList ts)
  | .vStr s =>
      if s.isEmpty then .ok (transformationOutput ctx (.vStr s))
      else .error "AttributeError: 'str' object has no attribute 'get'"
  | .vMap m =>
      if m.isEmpty then .ok (transformationOutput ctx (.vMap m))
      else .error "AttributeError: 'str' object has no attribute 'get'"
  | _ => .error "TypeError: object is not iterable"

/-- The step-type dispatch inside `_execute_step`: the four known operators,
and the skipped-with-message result for any other step type. -/
def dispatchStep (cfg : EngineConfig) (step : StepRec) (ctx : Ctx) :
    Except String Ctx :=
  if step.step_type == "ai_analysis" then
    execute_ai_analysis_step cfg step.parameters ctx
  else if step.step_type == "document_extraction" then
    .ok (execute_document_extraction_step ctx)
  else if step.step_type == "validation" then
    execute_validation_step step.parameters ctx
  else if step.step_type == "data_transformation" then
    execute_transformation_step step.parameters ctx
  else
    .ok [("status", .vStr "skipped"),
         ("message", .vStr ("Unknown step type: " ++ step.step_type))]

end WorkflowExecutionEngine

/-- `WorkflowInstanceCRUD.update_step` (a Mongo `update_one` keyed by
`step_number`, called with raw dicts — it works): rewrite the first stored
record with the given number. -/
def updateStepIn : List StepRec → Nat → (StepRec → StepRec) → List StepRec
  | [], _, _ => []
  | s :: rest, n, f =>
    if s.step_number == n then f s :: rest else s :: updateStepIn rest n f

namespace WorkflowExecutionEngine

/-- `WorkflowExecutionEngine._execute_step`: mark the step `RUNNING` with the
current context as its input snapshot, dispatch on the step type with that
same context, then mark the step `COMPLETED` with the operator's output —
or, when the operator raises, mark it `FAILED` with the exception message
and report failure.  All its store writes go through `update_step`, which
works. -/
def execute_step (cfg : EngineConfig) (step : StepRec) (ctx : Ctx)
    (st : EngineState) : EngineState × Bool :=
  let steps1 := updateStepIn st.steps step.step_number fun s =>
    { s with status := .running, input_data := ctx }
  match dispatchStep cfg step ctx with
  | .ok result =>
      ({ st with steps := updateStepIn steps1 step.step_number fun s =>
           { s with status := .completed, output_data := result } }, true)
  | .error e =>
      ({ st with steps := updateStepIn steps1 step.step_number fun s =>
           { s with status := .failed, error_message := some e } }, false)

/-- The `for step in steps` loop of `execute_workflow` together with the
enclosing try/except.  After the first step — whether it succeeded or
failed — the engine calls `update_status` with a plain dict (the progress
write at workflow_engine.py:63 on success, `_mark_failed` at line 58 on
failure), which raises `AttributeError`; the except block at line 92 calls
`_mark_failed` again, which raises the same way, so the exception
propagates.  The loop never advances past its first iteration, and the
context merge at lines 70-73 is never reached.  The empty case is the
completion write at line 76, which raises identically. -/
def execLoop (cfg : EngineConfig) :
    List StepRec → Ctx → EngineState → EngineState × Except String Bool
  | [], _, st => (st, .error updateStatusDictError)
  | step :: _, ctx, st =>
      ((execute_step cfg step ctx st).1, .error updateStatusDictError)

/-- `WorkflowExecutionEngine.execute_workflow` on a stored (found) instance
(the instance-not-found early `return False` concerns an absent document
and is outside this single-instance state): `start_execution` (a raw
`update_one`) marks the instance `RUNNING` and stamps `started_at`; then
every remaining path raises.  An instance without steps hits
`_mark_failed` (line 48), whose `update_status(dict)` raises, as does the
`_mark_failed` retry in the except block.  With steps, exactly the first
step executes through `update_step`, after which the first
`update_status` call raises.  The function never returns a boolean on a
stored instance and never writes a terminal status, progress value or
`output_data`. -/
def execute_workflow (cfg : EngineConfig) (st : EngineState) :
    EngineState × Except String Bool :=
  let st1 : EngineState :=
    { st with inst := { st.inst with status := .running, started_at := some cfg.now } }
  if st1.steps.isEmpty then
    (st1, .error updateStatusDictError)
  else
    execLoop cfg st1.steps st.inst.input_data st1

end WorkflowExecutionEngine

/-- The step records carry the dense 1-based numbering `base+1, base+2, …`
that `_create_workflow_steps` produces (with `base = 0`). -/
def stepsNumberedFrom : Nat → List StepRec → Bool
  | _, [] => true
  | n, s :: rest => s.step_number == n + 1 && stepsNumberedFrom (n + 1) rest

/-- All step records are `PENDING`, as they are at instance creation. -/
def allPending (steps : List StepRec) : Bool :=
  steps.all fun s => s.status == .pending

/-- The result the validation loop produces for one rule, when it produces
one: `None` when the rule is skipped (hashable field absent from the
context) and when iterating the rule would raise. -/
def ruleResult (ctx : Ctx) (r : Value) : Option Ctx :=
  match r with
  | .vMap rm =>
    match ctxGetD rm "field" .vNone with
    | .vStr f =>
      match ctxLookup ctx f with
      | some fv =>
        match WorkflowExecutionEngine.evaluate_condition fv
            (ctxGetD rm "condition" .vNone) (ctxGetD rm "value" .vNone) with
        | .ok passed => some [("rule", r), ("passed", .vBool passed), ("actual_value", fv)]
        | .error _ => none
      | none => none
    | _ => none
  | _ => none

/-- Does evaluating this rule avoid raising?  A non-dict rule raises; a
rule whose field is an unhashable list or dict raises in the `field in
context` membership test; an evaluated rule raises exactly when its
condition evaluation does (the `contains` condition with a non-string
expected value). -/
def ruleSafe (ctx : Ctx) (r : Value) : Bool :=
  match r with
  | .vMap rm =>
    match ctxGetD rm "field" .vNone with
    | .vStr f =>
      match ctxLookup ctx f with
      | some fv =>
        (WorkflowExecutionEngine.evaluate_condition fv
          (ctxGetD rm "condition" .vNone) (ctxGetD rm "value" .vNone)).toBool
      | none => true
    | .vList _ => false
    | .vMap _ => false
    | _ => true
  | _ => false

/-- A condition value matching none of the four supported conditions. -/
def unknownCondition (c : Value) : Bool :=
  !(c.beq (.vStr "equals") || c.beq (.vStr "not_equals")
    || c.beq (.vStr "contains") || c.beq (.vStr "not_empty"))

/-- A deterministic engine configuration for concrete runs: no OpenAI client
configured, inert LLM oracles. -/
def cfgW : WorkflowExecutionEngine.EngineConfig :=
  { hasOpenAIClient := false
    llmSummarize := fun _ _ => .error "no client"
    llmClassify := fun _ _ => .error "no client"
    llmExtractEntities := fun _ _ => .error "no client"
    now := 7 }

/-- The same configuration with an OpenAI client configured. -/
def cfgW2 : WorkflowExecutionEngine.EngineConfig :=
  { cfgW with hasOpenAIClient := true }

/-- A pending step record for concrete runs. -/
def mkStepW (n : Nat) (ty : String) (ps : Ctx) : StepRec :=
  { step_number := n, step_name := "s" ++ toString n, step_type := ty,
    operator_name := "", parameters := ps, status := .pending,
    input_data := [], output_data := [], error_message := none }

/-- A pending instance record for concrete runs. -/
def instW (total : Nat) (input : Ctx) : InstanceRec :=
  { status := .pending, current_step := 0, current_step_name := none,
    total_steps := total, input_data := input, output_data := [],
    progress_percentage := 0, error_message := none, started_at := none }

/-- Concrete run with two unknown-type steps. -/
def stW1 : WorkflowExecutionEngine.EngineState :=
  { inst := instW 2 [("x", .vStr "hello")]
    steps := [mkStepW 1 "foo" [], mkStepW 2 "bar" []]
    progressWrites := [] }

/-- Concrete run: a document_extraction step that writes keys, followed by
two further steps. -/
def stW2 : WorkflowExecutionEngine.EngineState :=
  { inst := instW 3 [("x", .vStr "hello")]
    steps := [mkStepW 1 "document_extraction" [],
              mkStepW 2 "ai_analysis" [],
              mkStepW 3 "foo" []]
    progressWrites := [] }

/-- Concrete run whose only step is an `ai_analysis` step without an
`operation` parameter (and `cfgW` has no OpenAI client). -/
def stW4 : WorkflowExecutionEngine.EngineState :=
  { inst := instW 1 []
    steps := [mkStepW 1 "ai_analysis" []]
    progressWrites := [] }

/-- Concrete run: a failing `ai_analysis` first step followed by an
unreached second step. -/
def stW7 : WorkflowExecutionEngine.EngineState :=
  { inst := instW 2 []
    steps := [mkStepW 1 "ai_analysis" [], mkStepW 2 "foo" []]
    progressWrites := [] }

/-- The single `not_empty` rule on field `x` of the spec scenario. -/
def rulesW : List Value :=
  [.vMap [("field", .vStr "x"), ("condition", .vStr "not_empty")]]

/-- Validation parameters of the spec scenario: one `not_empty` rule on `x`. -/
def valParamsW : Ctx :=
  [("rules", .vList rulesW)]

/-- One rule with the mistyped condition `equalz` on the present field `x`. -/
def rulesW9 : List Value :=
  [.vMap [("field", .vStr "x"), ("condition", .vStr "equalz"), ("value", .vStr "hi")]]

/-- Validation parameters carrying the mistyped rule. -/
def valParamsW9 : Ctx :=
  [("rules", .vList rulesW9)]

/-- A definition store holding a single deactivated two-step definition. -/
def defsW : List (String × DefinitionRec) :=
  [("d1", { name := "W", version := "1.0", workflow_type := "custom",
            steps := [{ type := some "validation" }, {}], is_active := false })]

/-- Instance store for the reaper: a stale running instance, a fresh running
instance, and a pending one. -/
def dbW : List InstanceRec :=
  [{ instW 0 [] with status := .running, started_at := some 1 },
   { instW 0 [] with status := .running, started_at := some 28 },
   { instW 0 [] with status := .pending, started_at := some 1 }]

namespace WorkflowExecutionEngine

/-- On every stored instance, `execute_workflow` raises the
`AttributeError` from `update_status(dict)`: the instance document keeps
the `RUNNING` status from `start_execution`, no progress value is ever
persisted, and no boolean is returned. -/
theorem execute_workflow_raises (cfg : EngineConfig) (st : EngineState) :
    (execute_workflow cfg st).1.inst =
      { st.inst with status := .running, started_at := some cfg.now }
    ∧ (execute_workflow cfg st).1.progressWrites = st.progressWrites
    ∧ (execute_workflow cfg st).2 = .error updateStatusDictError := by
  obtain ⟨inst, steps, pw⟩ := st
  cases steps with
  | nil => exact ⟨rfl, rfl, rfl⟩
  | cons s rest =>
      cases hd : dispatchStep cfg s inst.input_data with
      | ok out => simp [execute_workflow, execLoop, execute_step, hd]
      | error e => simp [execute_workflow, execLoop, execute_step, hd]

/-- C1 (code bug): the claim's completion path does not exist in the
program.  Every engine `update_status` call passes a plain dict and raises
`AttributeError` at workflow_crud.py:189 before writing (see
`execute_workflow_raises` for the general fact), so `execute_workflow`
never drives an instance to `COMPLETED`, never writes
`progress_percentage = 100` or `output_data`, and never returns `true`.
Concretely, the two-step run `stW1` executes only its first step, ends
with the instance still `RUNNING`, and raises. -/
theorem C1_code_bug :
    (execute_workflow cfgW stW1).1.inst.status = .running
    ∧ (execute_workflow cfgW stW1).1.inst.progress_percentage = 0
    ∧ (execute_workflow cfgW stW1).1.inst.output_data = []
    ∧ (execute_workflow cfgW stW1).2 = .error updateStatusDictError
    ∧ (∃ s2, (execute_workflow cfgW stW1).1.steps.get? 1 = some s2
        ∧ s2.status = .pending) :=
  ⟨rfl, rfl, rfl, rfl, ⟨_, rfl, rfl⟩⟩

/-- C2 (code bug): when step 1's operator raises, the step record is
correctly marked `FAILED` with the exception message (`update_step`
works), exactly one record is `FAILED` and the later record stays
`PENDING` — but the claim's instance-level conclusions are false of the
program: `_mark_failed`'s `update_status(dict)` raises `AttributeError`
(workflow_crud.py:189), so the instance is never set `FAILED`, keeps no
error message, and `execute_workflow` raises instead of returning
`false`.  (A failure at any step after the first can never occur at all:
the run already raises at the first post-step progress write.) -/
theorem C2_code_bug :
    (∃ s1, (execute_workflow cfgW stW7).1.steps.get? 0 = some s1
      ∧ s1.status = .failed
      ∧ s1.error_message = some "OpenAI client not available for AI analysis")
    ∧ ((execute_workflow cfgW stW7).1.steps.filter
        (fun s => s.status == WStatus.failed)).length = 1
    ∧ (∃ s2, (execute_workflow cfgW stW7).1.steps.get? 1 = some s2
        ∧ s2.status = .pending)
    ∧ (execute_workflow cfgW stW7).1.inst.status = .running
    ∧ (execute_workflow cfgW stW7).1.inst.error_message = none
    ∧ (execute_workflow cfgW stW7).2 = .error updateStatusDictError :=
  ⟨⟨_, rfl, rfl, rfl⟩, rfl, ⟨_, rfl, rfl⟩, rfl, rfl, rfl⟩

/-- C3 (code bug): the claimed multi-step data flow never occurs in the
program.  In the run `stW2`, step 1 (`document_extraction`) completes and
its stored output contains the key `extracted_data`, but the progress
write after it (workflow_engine.py:63) raises `AttributeError` before the
context merge at lines 70-73, so step 2 never starts: its record stays
`PENDING` with an empty input snapshot that does not contain step 1's
output key, and the run raises. -/
theorem C3_code_bug :
    (∃ s1, (execute_workflow cfgW stW2).1.steps.get? 0 = some s1
      ∧ s1.status = .completed
      ∧ ctxHas s1.output_data "extracted_data" = true)
    ∧ (∃ s2, (execute_workflow cfgW stW2).1.steps.get? 1 = some s2
      ∧ s2.status = .pending
      ∧ s2.input_data = ([] : Ctx)
      ∧ ctxHas s2.input_data "extracted_data" = false)
    ∧ (execute_workflow cfgW stW2).2 = .error updateStatusDictError :=
  ⟨⟨_, rfl, rfl, rfl⟩, ⟨_, rfl, rfl, rfl, rfl⟩, rfl⟩

/-- C7 (code bug): the per-step half of the claim is real — dispatch on the
unknown type `foo` yields the skipped output whose message contains the
type, and the step record is marked `COMPLETED` with that output — but
`an instance consisting of such steps still reaches COMPLETED` is false
of the program: the progress write after step 1 raises `AttributeError`
(workflow_crud.py:189), the instance stays `RUNNING`, and the run
raises. -/
theorem C7_code_bug :
    dispatchStep cfgW (mkStepW 1 "foo" []) [] =
      .ok [("status", .vStr "skipped"), ("message", .vStr "Unknown step type: foo")]
    ∧ strContains "Unknown step type: foo" "foo" = true
    ∧ (∃ s1, (execute_workflow cfgW stW1).1.steps.get? 0 = some s1
        ∧ s1.status = .completed
        ∧ s1.output_data = [("status", .vStr "skipped"),
            ("message", .vStr "Unknown step type: foo")])
    ∧ (execute_workflow cfgW stW1).1.inst.status = .running
    ∧ (execute_workflow cfgW stW1).2 = .error updateStatusDictError :=
  ⟨rfl, by decide, ⟨_, rfl, rfl, rfl⟩, rfl, rfl⟩

/-- C8 (code bug): the claimed write sequence `k/total*100 … 100` is never
persisted.  `update_status` raises at its first line
(workflow_crud.py:189), before any store write, so the trace of persisted
progress values stays empty on a run that executed a step successfully,
and the run raises instead of completing. -/
theorem C8_code_bug :
    (execute_workflow cfgW stW1).1.progressWrites = []
    ∧ (∃ s1, (execute_workflow cfgW stW1).1.steps.get? 0 = some s1
        ∧ s1.status = .completed)
    ∧ (execute_workflow cfgW stW1).1.inst.progress_percentage = 0
    ∧ (execute_workflow cfgW stW1).2 = .error updateStatusDictError :=
  ⟨rfl, ⟨_, rfl, rfl⟩, rfl, rfl⟩

/-- C10 (code bug): the operator-level half of the claim is real — an
`ai_analysis` step raises when no client is configured, and with a client
it raises for the undispatched default operation `analyze` or any unknown
operation, and the step record is marked `FAILED` — but `the instance
fails` is false of the program: `_mark_failed`'s `update_status(dict)`
raises `AttributeError` (workflow_crud.py:189), the instance stays
`RUNNING` with no error message, and `execute_workflow` raises rather
than returning `false`. -/
theorem C10_code_bug :
    dispatchStep cfgW (mkStepW 1 "ai_analysis" []) [] =
      .error "OpenAI client not available for AI analysis"
    ∧ dispatchStep cfgW2 (mkStepW 1 "ai_analysis" []) [] =
      .error "Unknown AI operation: analyze"
    ∧ dispatchStep cfgW2 (mkStepW 1 "ai_analysis" [("operation", .vStr "transmogrify")]) []
      = .error "Unknown AI operation: transmogrify"
    ∧ (execute_step cfgW (mkStepW 1 "ai_analysis" []) [] stW4).2 = false
    ∧ (∃ s1, (execute_workflow cfgW stW4).1.steps.get? 0 = some s1
        ∧ s1.status = .failed
        ∧ s1.error_message = some "OpenAI client not available for AI analysis")
    ∧ (execute_workflow cfgW stW4).1.inst.status = .running
    ∧ (execute_workflow cfgW stW4).1.inst.error_message = none
    ∧ (execute_workflow cfgW stW4).2 = .error updateStatusDictError :=
  ⟨rfl, rfl, rfl, rfl, ⟨_, rfl, rfl, rfl⟩, rfl, rfl, rfl⟩

end WorkflowExecutionEngine

namespace WorkflowExecutionEngine

theorem stepsNumberedFrom_of_get (steps : List StepRec) :
    ∀ n, (∀ i (h : i < steps.length), (steps.get ⟨i, h⟩).step_number = n + i + 1) →
      stepsNumberedFrom n steps = true := by
  induction steps with
  | nil => intro n _; rfl
  | cons s t ih =>
      intro n hall
      simp only [stepsNumberedFrom, Bool.and_eq_true, beq_iff_eq]
      constructor
      · simpa using hall 0 (by simp)
      · apply ih (n + 1)
        intro i h
        have := hall (i + 1) (by simpa using h)
        simp only [List.get_cons_succ] at this
        omega

theorem create_workflow_steps_get (sd : List StepDef) :
    ∀ i (h : i < (WorkflowInstanceCRUD.create_workflow_steps sd).length),
      ((WorkflowInstanceCRUD.create_workflow_steps sd).get ⟨i, h⟩).step_number = i + 1 := by
  intro i h
  simp [WorkflowInstanceCRUD.create_workflow_steps]

theorem create_workflow_steps_length (sd : List StepDef) :
    (WorkflowInstanceCRUD.create_workflow_steps sd).length = sd.length := by
  simp [WorkflowInstanceCRUD.create_workflow_steps]

theorem create_workflow_steps_pending (sd : List StepDef) :
    allPending (WorkflowInstanceCRUD.create_workflow_steps sd) = true := by
  simp only [allPending, List.all_eq_true]
  intro s hs
  simp only [WorkflowInstanceCRUD.create_workflow_steps, List.mem_map] at hs
  obtain ⟨iv, _, rfl⟩ := hs
  rfl

theorem create_workflow_steps_numbered (sd : List StepDef) :
    stepsNumberedFrom 0 (WorkflowInstanceCRUD.create_workflow_steps sd) = true := by
  apply stepsNumberedFrom_of_get
  intro i h
  have := create_workflow_steps_get sd i h
  omega

/-- Counterexample to C4 as stated: the store `defsW` holds definition `d1`
with `is_active = false`, yet `create` accepts the start request and
creates the instance — the active flag is never consulted on this path. -/
theorem C4_counterexample :
    defsW.find? (fun p => p.1 == "d1") = some ("d1",
      { name := "W", version := "1.0", workflow_type := "custom",
        steps := [{ type := some "validation" }, {}], is_active := false })
    ∧ (WorkflowInstanceCRUD.create defsW
        { workflow_definition_id := "d1", input_data := [] }).toOption.isSome = true :=
  ⟨rfl, rfl⟩

/-- C4 (amended): `create` succeeds exactly when the referenced definition
id is found — the definition's active flag is not checked.  On success it
creates a `PENDING` instance with `total_steps` equal to the number of
definition steps and one `PENDING`, densely 1-based-numbered step record
per definition step; an unknown id fails with the definition-not-found
error. -/
theorem C4_create_instance (defs : List (String × DefinitionRec)) (req : InstanceRequest) :
    (defs.find? (fun p => p.1 == req.workflow_definition_id) = none →
      WorkflowInstanceCRUD.create defs req = .error "Workflow definition not found")
    ∧ ∀ d, defs.find? (fun p => p.1 == req.workflow_definition_id) = some d →
        WorkflowInstanceCRUD.create defs req = .ok
          ({ status := .pending, current_step := 0, current_step_name := none,
             total_steps := d.2.steps.length, input_data := req.input_data,
             output_data := [], progress_percentage := 0, error_message := none,
             started_at := none },
           WorkflowInstanceCRUD.create_workflow_steps d.2.steps)
        ∧ (WorkflowInstanceCRUD.create_workflow_steps d.2.steps).length
            = d.2.steps.length
        ∧ allPending (WorkflowInstanceCRUD.create_workflow_steps d.2.steps) = true
        ∧ stepsNumberedFrom 0 (WorkflowInstanceCRUD.create_workflow_steps d.2.steps)
            = true := by
  constructor
  · intro h
    simp [WorkflowInstanceCRUD.create, h]
  · intro d hd
    refine ⟨?_, create_workflow_steps_length d.2.steps,
      create_workflow_steps_pending d.2.steps,
      create_workflow_steps_numbered d.2.steps⟩
    simp [WorkflowInstanceCRUD.create, hd]

/-- Witness for C4 (amended) at the concrete store `defsW`. -/
theorem C4_witness :
    WorkflowInstanceCRUD.create defsW
        { workflow_definition_id := "d1", input_data := [] } = .ok
      ({ status := .pending, current_step := 0, current_step_name := none,
         total_steps := 2, input_data := [], output_data := [],
         progress_percentage := 0, error_message := none, started_at := none },
       WorkflowInstanceCRUD.create_workflow_steps
         [{ type := some "validation" }, {}])
    ∧ (WorkflowInstanceCRUD.create_workflow_steps
        ([{ type := some "validation" }, {}] : List StepDef)).length = 2
    ∧ allPending (WorkflowInstanceCRUD.create_workflow_steps
        ([{ type := some "validation" }, {}] : List StepDef)) = true
    ∧ stepsNumberedFrom 0 (WorkflowInstanceCRUD.create_workflow_steps
        ([{ type := some "validation" }, {}] : List StepDef)) = true :=
  (C4_create_instance defsW { workflow_definition_id := "d1", input_data := [] }).2
    ("d1", { name := "W", version := "1.0", workflow_type := "custom",
             steps := [{ type := some "validation" }, {}], is_active := false })
    rfl

theorem timeout_message_ne_empty (timeout_hours : Nat) :
    ("Workflow timeout after " ++ toString timeout_hours ++ " hours") ≠ "" := by
  intro hc
  have := congrArg String.length hc
  simp only [String.length_append] at this
  have h23 : "Workflow timeout after ".length = 23 := rfl
  have h6 : " hours".length = 6 := rfl
  have h0 : "".length = 0 := rfl
  omega

/-- C6: `cleanup_stale_instances` transitions every instance that is
`RUNNING` with `started_at` older than the cutoff to `FAILED` with a
non-empty timeout message, leaves every other instance unchanged
(regardless of its steps, which it never reads), and returns the number of
instances so transitioned. -/
theorem C6_cleanup_stale (now timeout_hours : Nat) (db : List InstanceRec) :
    (WorkflowInstanceCRUD.cleanup_stale_instances now timeout_hours db).1.length
      = db.length
    ∧ (WorkflowInstanceCRUD.cleanup_stale_instances now timeout_hours db).2
      = (db.filter (WorkflowInstanceCRUD.isStale (now - timeout_hours))).length
    ∧ ∀ i inst, db.get? i = some inst →
        (WorkflowInstanceCRUD.isStale (now - timeout_hours) inst = true →
          ∃ r, (WorkflowInstanceCRUD.cleanup_stale_instances now timeout_hours db).1.get? i
              = some r
            ∧ r.status = .failed
            ∧ ∃ m, r.error_message = some m ∧ m ≠ "")
        ∧ (WorkflowInstanceCRUD.isStale (now - timeout_hours) inst = false →
          (WorkflowInstanceCRUD.cleanup_stale_instances now timeout_hours db).1.get? i
            = some inst) := by
  refine ⟨by simp [WorkflowInstanceCRUD.cleanup_stale_instances], rfl, ?_⟩
  intro i inst hi
  have hmap : (WorkflowInstanceCRUD.cleanup_stale_instances now timeout_hours db).1.get? i
      = some (if WorkflowInstanceCRUD.isStale (now - timeout_hours) inst then
          { inst with status := .failed,
                      error_message := some ("Workflow timeout after "
                        ++ toString timeout_hours ++ " hours") }
        else inst) := by
    simp only [WorkflowInstanceCRUD.cleanup_stale_instances, List.get?_map, hi,
      Option.map_some']
  constructor
  · intro hstale
    rw [hmap, if_pos hstale]
    exact ⟨_, rfl, rfl, _, rfl, timeout_message_ne_empty timeout_hours⟩
  · intro hfresh
    rw [hmap, if_neg (by simp [hfresh])]

/-- Witness for C6 at the concrete store `dbW`: exactly the first (stale)
instance is transitioned, with a non-empty message. -/
theorem C6_witness :
    (WorkflowInstanceCRUD.cleanup_stale_instances 30 24 dbW).2 = 1
    ∧ ∃ r, (WorkflowInstanceCRUD.cleanup_stale_instances 30 24 dbW).1.get? 0 = some r
        ∧ r.status = .failed ∧ ∃ m, r.error_message = some m ∧ m ≠ "" := by
  have h := C6_cleanup_stale 30 24 dbW
  constructor
  · rw [h.2.1]
    rfl
  · exact (h.2.2 0 _ rfl).1 (by decide)

theorem evaluate_condition_unknown (fv c ev : Value)
    (hc : unknownCondition c = true) :
    evaluate_condition fv c ev = .ok false := by
  simp only [unknownCondition, Bool.not_eq_true', Bool.or_eq_false_iff] at hc
  simp [evaluate_condition, hc.1.1.1, hc.1.1.2, hc.1.2, hc.2]

theorem filterMap_length_eq {α β : Type} (f : α → Option β) (l : List α) :
    (l.filterMap f).length = (l.filter fun a => (f a).isSome).length := by
  induction l with
  | nil => rfl
  | cons a t ih =>
      cases hf : f a with
      | none => simp [List.filterMap_cons, List.filter_cons, hf, ih]
      | some b => simp [List.filterMap_cons, List.filter_cons, hf, ih]

/-- The validation loop, when it returns, returns exactly one result per
rule whose field is a string key present in the context, in order. -/
theorem execute_validation_rules_spec (ctx : Ctx) (rules : List Value) :
    ∀ results, execute_validation_rules ctx rules = .ok results →
      results = rules.filterMap (ruleResult ctx) := by
  induction rules with
  | nil =>
      intro results h
      simp only [execute_validation_rules] at h
      cases h
      simp
  | cons r rs ih =>
      intro results h
      cases r with
      | vMap rm =>
          simp only [execute_validation_rules] at h
          cases hfe : ctxGetD rm "field" .vNone with
          | vStr f =>
              simp only [hfe] at h
              cases hlk : ctxLookup ctx f with
              | some fv =>
                  simp only [hlk] at h
                  cases hev : evaluate_condition fv (ctxGetD rm "condition" .vNone)
                      (ctxGetD rm "value" .vNone) with
                  | ok passed =>
                      simp only [hev] at h
                      cases hrec : execute_validation_rules ctx rs with
                      | ok rest =>
                          rw [hrec] at h
                          simp only [Except.map] at h
                          cases h
                          simp [List.filterMap_cons, ruleResult, hfe, hlk, hev, ih rest hrec]
                      | error e2 =>
                          rw [hrec] at h
                          simp [Except.map] at h
                  | error e2 =>
                      simp only [hev] at h
                      cases h
              | none =>
                  simp only [hlk] at h
                  simp [List.filterMap_cons, ruleResult, hfe, hlk, ih results h]
          | vNone =>
              simp only [hfe] at h
              simp [List.filterMap_cons, ruleResult, hfe, ih results h]
          | vBool b =>
              simp only [hfe] at h
              simp [List.filterMap_cons, ruleResult, hfe, ih results h]
          | vNat n =>
              simp only [hfe] at h
              simp [List.filterMap_cons, ruleResult, hfe, ih results h]
          | vList xs =>
              simp only [hfe] at h
              simp at h
          | vMap m2 =>
              simp only [hfe] at h
              simp at h
      | vNone => simp [execute_validation_rules] at h
      | vBool b => simp [execute_validation_rules] at h
      | vNat n => simp [execute_validation_rules] at h
      | vStr s => simp [execute_validation_rules] at h
      | vList xs => simp [execute_validation_rules] at h

/-- The validation loop returns (does not raise) whenever every rule is a
dict whose field is not an unhashable value and every evaluated rule's
condition evaluation succeeds. -/
theorem execute_validation_rules_ok (ctx : Ctx) (rules : List Value)
    (hsafe : (rules.all fun r => ruleSafe ctx r) = true) :
    ∃ results, execute_validation_rules ctx rules = .ok results := by
  induction rules with
  | nil => exact ⟨[], rfl⟩
  | cons r rs ih =>
      simp only [List.all_cons, Bool.and_eq_true] at hsafe
      obtain ⟨results, hrec⟩ := ih hsafe.2
      have hr := hsafe.1
      cases r with
      | vMap rm =>
          cases hfe : ctxGetD rm "field" .vNone with
          | vStr f =>
              cases hlk : ctxLookup ctx f with
              | some fv =>
                  cases hev : evaluate_condition fv (ctxGetD rm "condition" .vNone)
                      (ctxGetD rm "value" .vNone) with
                  | ok passed =>
                      refine ⟨[("rule", Value.vMap rm), ("passed", Value.vBool passed),
                          ("actual_value", fv)] :: results, ?_⟩
                      simp [execute_validation_rules, hfe, hlk, hev, hrec, Except.map]
                  | error e2 =>
                      exfalso
                      simp only [ruleSafe, hfe, hlk, hev] at hr
                      simp [Except.toBool] at hr
              | none =>
                  exact ⟨results, by simp [execute_validation_rules, hfe, hlk, hrec]⟩
          | vNone => exact ⟨results, by simp [execute_validation_rules, hfe, hrec]⟩
          | vBool b => exact ⟨results, by simp [execute_validation_rules, hfe, hrec]⟩
          | vNat n => exact ⟨results, by simp [execute_validation_rules, hfe, hrec]⟩
          | vList xs => simp [ruleSafe, hfe] at hr
          | vMap m2 => simp [ruleSafe, hfe] at hr
      | vNone => simp [ruleSafe] at hr
      | vBool b => simp [ruleSafe] at hr
      | vNat n => simp [ruleSafe] at hr
      | vStr s => simp [ruleSafe] at hr
      | vList xs => simp [ruleSafe] at hr

/-- When the `rules` parameter is an actual list and the validation step
returns, its output is `validationOutput` of what the loop collected. -/
theorem execute_validation_step_ok (parameters ctx : Ctx) (rules : List Value) (out : Ctx)
    (hg : ctxGetD parameters "rules" (.vList []) = .vList rules)
    (h : execute_validation_step parameters ctx = .ok out) :
    ∃ results, execute_validation_rules ctx rules = .ok results
      ∧ out = validationOutput results := by
  simp only [execute_validation_step, hg] at h
  cases hrec : execute_validation_rules ctx rules with
  | ok results =>
      rw [hrec] at h
      simp only [Except.map] at h
      cases h
      exact ⟨results, rfl, rfl⟩
  | error e =>
      rw [hrec] at h
      simp [Except.map] at h

/-- C9: evaluating a validation rule whose condition is none of `equals`,
`not_equals`, `contains`, `not_empty` returns `False` (the rule counts as
failed) instead of raising or passing; hence a rules list containing such a
rule on a field present in the context makes `all_passed` false whenever
the validation operator returns. -/
theorem C9_unknown_condition (fv c ev : Value)
    (parameters ctx : Ctx) (rules : List Value) (rm : Ctx) (f : String)
    (hc : unknownCondition c = true)
    (hrules : ctxGetD parameters "rules" (.vList []) = .vList rules)
    (hmem : Value.vMap rm ∈ rules)
    (hfe : ctxGetD rm "field" .vNone = .vStr f)
    (hfs : (ctxLookup ctx f).isSome = true)
    (hcond : unknownCondition (ctxGetD rm "condition" .vNone) = true) :
    evaluate_condition fv c ev = .ok false
    ∧ ∀ out, execute_validation_step parameters ctx = .ok out →
        ctxLookup out "all_passed" = some (.vBool false) := by
  refine ⟨evaluate_condition_unknown fv c ev hc, ?_⟩
  intro out hok
  obtain ⟨results, hrec, hout⟩ :=
    execute_validation_step_ok parameters ctx rules out hrules hok
  subst hout
  have hres := execute_validation_rules_spec ctx _ results hrec
  obtain ⟨fv0, hfv0⟩ := Option.isSome_iff_exists.mp hfs
  have hx : ∃ res ∈ results, ctxGetD res "passed" .vNone = .vBool false := by
    refine ⟨[("rule", Value.vMap rm), ("passed", Value.vBool false),
      ("actual_value", fv0)], ?_, rfl⟩
    rw [hres]
    exact List.mem_filterMap.mpr ⟨Value.vMap rm, hmem,
      by simp [ruleResult, hfe, hfv0, evaluate_condition_unknown fv0 _ _ hcond]⟩
  have hall : (results.all fun res =>
      (ctxGetD res "passed" .vNone).beq (.vBool true)) = false := by
    obtain ⟨res, hresmem, hpf⟩ := hx
    refine List.all_eq_false.mpr ⟨res, hresmem, ?_⟩
    simp [hpf, Value.beq]
  simp [validationOutput, ctxLookup, hall]

/-- Witness for C9 at the mistyped condition `equalz` on present field `x`. -/
theorem C9_witness :
    evaluate_condition (.vStr "hi") (.vStr "equalz") (.vStr "hi") = .ok false
    ∧ ∀ out, execute_validation_step valParamsW9 [("x", .vStr "hi")] = .ok out →
        ctxLookup out "all_passed" = some (.vBool false) :=
  C9_unknown_condition (.vStr "hi") (.vStr "equalz") (.vStr "hi")
    valParamsW9 [("x", .vStr "hi")] rulesW9
    [("field", .vStr "x"), ("condition", .vStr "equalz"), ("value", .vStr "hi")] "x"
    (by decide) rfl (by simp [rulesW9]) rfl rfl (by decide)

/-- Counterexample to C5 as stated: the scenario rule list has one rule
(`not_empty` on field `x`), yet on a context lacking `x` the validation
operator returns zero per-rule results — not one per rule — and reports
`all_passed = True` even though the rule was not checked.  The amendment's
side conditions are each forced: a non-dict rule raises `AttributeError`,
a rule whose field is an unhashable list raises `TypeError` in the
membership test, and an evaluated `contains` rule with a non-string
expected value raises `TypeError`. -/
theorem C5_counterexample :
    rulesW.length = 1
    ∧ execute_validation_step valParamsW [] = .ok (validationOutput [])
    ∧ ctxLookup (validationOutput []) "validation_results" = some (.vList [])
    ∧ ctxLookup (validationOutput []) "all_passed" = some (.vBool true)
    ∧ ([] : List Ctx).length ≠ rulesW.length
    ∧ execute_validation_step [("rules", .vList [.vStr "x"])] [("x", .vStr "a")]
      = .error "AttributeError: 'str' object has no attribute 'get'"
    ∧ execute_validation_step
        [("rules", .vList [.vMap [("field", .vList [])]])] [("x", .vStr "a")]
      = .error "TypeError: unhashable type: 'list'"
    ∧ execute_validation_step
        [("rules", .vList [.vMap [("field", .vStr "x"),
          ("condition", .vStr "contains"), ("value", .vNat 5)]])] [("x", .vStr "abc")]
      = .error "TypeError: in <string> requires string as left operand" :=
  ⟨rfl, rfl, rfl, rfl, by decide, rfl, rfl, rfl⟩

/-- C5 (amended): for every rules list and context map: a rule that is not
a dict raises `AttributeError`, and a rule whose `field` is an unhashable
list or dict raises `TypeError`; when no rule raises, the operator returns
one pass/fail result per rule whose `field` is a string key present in the
context — rules referencing absent fields are skipped and contribute no
result — with `all_passed` true exactly when every produced result passed
(vacuously true when no rule was evaluated); it returns normally even when
`all_passed` is false, and the validation step still transitions to
`COMPLETED`.  `ruleSafe` characterises the non-raising rules: dicts whose
field is hashable and whose condition evaluation (when the field is
present) does not raise. -/
theorem C5_validation_output (parameters ctx : Ctx) (rules : List Value)
    (hrules : ctxGetD parameters "rules" (.vList []) = .vList rules)
    (hsafe : (rules.all fun r => ruleSafe ctx r) = true) :
    ∃ results, execute_validation_rules ctx rules = .ok results
      ∧ results = rules.filterMap (ruleResult ctx)
      ∧ results.length = (rules.filter fun r => (ruleResult ctx r).isSome).length
      ∧ execute_validation_step parameters ctx = .ok (validationOutput results)
      ∧ ∀ (cfg : EngineConfig) (stp : StepRec) (st2 : EngineState) (rest2 : List StepRec),
          stp.step_type = "validation" → stp.parameters = parameters →
          st2.steps = stp :: rest2 →
          (execute_step cfg stp ctx st2).2 = true
          ∧ ∃ s0 rest3, (execute_step cfg stp ctx st2).1.steps = s0 :: rest3
              ∧ s0.status = .completed := by
  obtain ⟨results, hrec⟩ := execute_validation_rules_ok ctx rules hsafe
  have hspec := execute_validation_rules_spec ctx rules results hrec
  have hstep : execute_validation_step parameters ctx = .ok (validationOutput results) := by
    simp [execute_validation_step, hrules, hrec, Except.map]
  refine ⟨results, hrec, hspec, by rw [hspec]; exact filterMap_length_eq _ _, hstep, ?_⟩
  intro cfg stp st2 rest2 hty hparams hsteps
  have hdp : dispatchStep cfg stp ctx = .ok (validationOutput results) := by
    simp [dispatchStep, hty, hparams, hstep]
  obtain ⟨inst2, steps2, pw2⟩ := st2
  simp only at hsteps
  subst hsteps
  refine ⟨by simp [execute_step, hdp], ?_⟩
  refine ⟨{ stp with status := .completed, input_data := ctx,
                     output_data := validationOutput results }, rest2, ?_, rfl⟩
  simp [execute_step, hdp, updateStepIn]

/-- Witness for C5 (amended) at the spec scenario: rule `not_empty` on `x`,
context `x = ""`. -/
theorem C5_witness :
    ∃ results, execute_validation_rules [("x", .vStr "")] rulesW = .ok results
      ∧ results = rulesW.filterMap (ruleResult [("x", .vStr "")])
      ∧ results.length = (rulesW.filter fun r =>
          (ruleResult [("x", .vStr "")] r).isSome).length
      ∧ execute_validation_step valParamsW [("x", .vStr "")]
          = .ok (validationOutput results)
      ∧ ∀ (cfg : EngineConfig) (stp : StepRec) (st2 : EngineState) (rest2 : List StepRec),
          stp.step_type = "validation" → stp.parameters = valParamsW →
          st2.steps = stp :: rest2 →
          (execute_step cfg stp [("x", .vStr "")] st2).2 = true
          ∧ ∃ s0 rest3, (execute_step cfg stp [("x", .vStr "")] st2).1.steps = s0 :: rest3
              ∧ s0.status = .completed :=
  C5_validation_output valParamsW [("x", .vStr "")] rulesW rfl (by decide)

end WorkflowExecutionEngine
